import Mathlib

/-!
Verification of the PDFToJSON form-schema extraction pipeline
(`form_analyzer.py`) against its natural-language specification.

The development shallowly embeds the Python code:

* strings are `List Char` (with `String` wrappers at the interfaces);
* the canonical-key derivation of `_build_prompt` (lines 196-199) is the
  composition of `str.lower`, two single-character `str.replace` passes and
  an `isalnum`-or-underscore filter;
* the prompt template `FORM_ANALYSIS_PROMPT` is represented pre-split at its
  `str.format` placeholders, with the Python `{{`/`}}` escapes already
  collapsed to literal braces, exactly as `str.format` renders them;
* `_extract_json` (lines 207-248) is the composition of `str.strip`, the
  fence-stripping step, the brace-depth truncation step and `json.loads`;
* `json.loads` is modelled as a fuel-indexed recursive-descent parser over
  the grammar documented for the CPython `json` module (RFC 8259 plus the
  `NaN`/`Infinity`/`-Infinity` constants, strict control-character handling
  in strings, last-wins duplicate object keys).

Python builtins are modelled on the character repertoire this development
uses (ASCII plus the Latin-1 supplement); the divergences are noted at each
definition.
-/

/-! ### Characters that the scanner of this file treats specially -/

/-- The character `{` (U+007B). -/
def lbrace : Char := Char.ofNat 123

/-- The character `}` (U+007D). -/
def rbrace : Char := Char.ofNat 125

/-- The character `"` (U+0022). -/
def dquote : Char := Char.ofNat 34

/-- The character `\` (U+005C). -/
def bslash : Char := Char.ofNat 92

/-! ### Python string builtins used by `_build_prompt` -/

/-- Models the Python `str.lower` builtin character-wise on the repertoire used here:
ASCII `A`-`Z` and the Latin-1 uppercase letters U+00C0-U+00DE (excluding the
multiplication sign U+00D7) map 32 code points up, exactly as in CPython;
all other code points are left unchanged.  (CPython additionally lowercases
letters above U+00FF, which are outside the repertoire of this
development.) -/
def pyLower (c : Char) : Char :=
  if 65 ≤ c.toNat ∧ c.toNat ≤ 90 then Char.ofNat (c.toNat + 32)
  else if (192 ≤ c.toNat ∧ c.toNat ≤ 222) ∧ c.toNat ≠ 215 then Char.ofNat (c.toNat + 32)
  else c

/-- Models the Python `str.isalnum` builtin on single characters, on the repertoire
used here: ASCII digits and letters, and the Latin-1 letters
U+00C0-U+00D6, U+00D8-U+00F6 and U+00F8-U+00FF, for which the CPython
`isalnum()` builtin returns `True` (the excluded U+00D7 and U+00F7 are signs, for
which it returns `False`).  Code points above U+00FF are outside the
modelled repertoire and are mapped to `false`. -/
def pyIsAlnum (c : Char) : Bool :=
  decide ((48 ≤ c.toNat ∧ c.toNat ≤ 57) ∨ (65 ≤ c.toNat ∧ c.toNat ≤ 90) ∨
    (97 ≤ c.toNat ∧ c.toNat ≤ 122) ∨ (192 ≤ c.toNat ∧ c.toNat ≤ 214) ∨
    (216 ≤ c.toNat ∧ c.toNat ≤ 246) ∨ (248 ≤ c.toNat ∧ c.toNat ≤ 255))

/-- One step of `form_name_key.replace(' ', '_')` (U+0020 to U+005F). -/
def replSpace (c : Char) : Char := if c.toNat = 32 then '_' else c

/-- One step of `form_name_key.replace('-', '_')` (U+002D to U+005F). -/
def replHyphen (c : Char) : Char := if c.toNat = 45 then '_' else c

/-- The filter of `_build_prompt` line 199:
`c for c in form_name_key if c.isalnum() or c == '_'`. -/
def keyFilter (c : Char) : Bool := pyIsAlnum c || c = '_'

/-- The canonical machine key derived from a form name by `_build_prompt`
(lines 196-199): lower-case, replace `' '` with `'_'`, replace `'-'` with
`'_'`, keep only alphanumerics and underscores. -/
def form_name_key (cs : List Char) : List Char :=
  ((((cs.map pyLower).map replSpace).map replHyphen).filter keyFilter)

/-- The `String`-level wrapper for `form_name_key`. -/
def pyKey (s : String) : String := String.mk (form_name_key s.data)

/-! ### Theorems: claims C4 -/

/-- C4 (counterexample): on the form name `"Dental Patient Intake - v2!"`
the key derived by `_build_prompt` is NOT `"dental_patient_intake_v2"`:
each of the three separator characters in `" - "` becomes its own
underscore, and nothing collapses the run. -/
theorem C4_counterexample :
    pyKey "Dental Patient Intake - v2!" ≠ "dental_patient_intake_v2" ∧
    pyKey "Dental Patient Intake - v2!" = "dental_patient_intake___v2" := by
  constructor
  · intro h
    exact absurd h (by decide)
  · rfl

/-- C4 (amended): for the form name `"Dental Patient Intake - v2!"`, the
canonical machine key derived by `_build_prompt` equals
`"dental_patient_intake___v2"` — the space, hyphen, space sequence yields
three consecutive underscores, which are not collapsed. -/
theorem C4_dental_key :
    pyKey "Dental Patient Intake - v2!" = "dental_patient_intake___v2" := by
  rfl

/-! ### A model of CPython `json.loads`

`_extract_json` delegates the final parse to `json.loads`.  The grammar
below follows the documentation of the CPython `json` module: RFC 8259
values, the extra constants `NaN`, `Infinity` and `-Infinity`, whitespace
space, tab, newline and carriage return, strict rejection of unescaped control
characters inside strings, and last-wins insertion for duplicate object
keys.  Numbers are interpreted exactly, as rationals.  (Lone surrogates
produced by `\uXXXX` escapes are outside the `Char` repertoire of Lean and are
represented by the replacement value of `Char.ofNat`; no claim below
depends on them.) -/

/-- The JSON values returned by the modelled `json.loads`. -/
inductive Json where
  | jnull : Json
  | jbool : Bool → Json
  | jnum : ℚ → Json
  | jnan : Json
  | jinf : Bool → Json
  | jstr : List Char → Json
  | jarr : List Json → Json
  | jobj : List (List Char × Json) → Json

/-- Whitespace skipped by the `json` module: space, tab, newline, return. -/
def isJsonWs (c : Char) : Bool :=
  decide (c.toNat = 32 ∨ c.toNat = 9 ∨ c.toNat = 10 ∨ c.toNat = 13)

/-- Skip JSON whitespace. -/
def skipWs (l : List Char) : List Char := l.dropWhile isJsonWs

/-- The test `listStarts pat l` holds when `pat` is an initial segment of `l`. -/
def listStarts : List Char → List Char → Bool
  | [], _ => true
  | _ :: _, [] => false
  | p :: ps, c :: cs => p = c && listStarts ps cs

/-- Remove a literal initial segment, or fail. -/
def stripPre (pat l : List Char) : Option (List Char) :=
  if listStarts pat l then some (l.drop pat.length) else none

/-- Value of a hexadecimal digit, as used by `\uXXXX` escapes. -/
def hexVal (c : Char) : Option Nat :=
  if 48 ≤ c.toNat ∧ c.toNat ≤ 57 then some (c.toNat - 48)
  else if 97 ≤ c.toNat ∧ c.toNat ≤ 102 then some (c.toNat - 87)
  else if 65 ≤ c.toNat ∧ c.toNat ≤ 70 then some (c.toNat - 55)
  else none

/-- ASCII decimal digit test. -/
def isDigitCh (c : Char) : Bool := decide (48 ≤ c.toNat ∧ c.toNat ≤ 57)

/-- Numeric value of a digit list (most significant first). -/
def digitsToNat (ds : List Char) : Nat :=
  ds.foldl (fun n c => n * 10 + (c.toNat - 48)) 0

/-- Body of a JSON string, after the opening quote: returns the decoded
characters and the input after the closing quote.  Mirrors the CPython
`scanstring` function in strict mode: the escapes `\" \\ \/ \b \f \n \r \t` and
`\uXXXX` (with surrogate pairing), any other escape or an unescaped
control character is an error.  The fuel argument only forces
termination: every recursive call consumes at least one character, and
every call site supplies more fuel than the remaining input length. -/
def parseStrAux : Nat → List Char → List Char → Option (List Char × List Char)
  | 0, _, _ => none
  | _, _, [] => none
  | Nat.succ fuel, acc, c :: rest =>
    if c = dquote then some (acc.reverse, rest)
    else if c = bslash then
      match rest with
      | [] => none
      | e :: rest2 =>
        if e = dquote then parseStrAux fuel (dquote :: acc) rest2
        else if e = bslash then parseStrAux fuel (bslash :: acc) rest2
        else if e = '/' then parseStrAux fuel ('/' :: acc) rest2
        else if e = 'b' then parseStrAux fuel (Char.ofNat 8 :: acc) rest2
        else if e = 'f' then parseStrAux fuel (Char.ofNat 12 :: acc) rest2
        else if e = 'n' then parseStrAux fuel (Char.ofNat 10 :: acc) rest2
        else if e = 'r' then parseStrAux fuel (Char.ofNat 13 :: acc) rest2
        else if e = 't' then parseStrAux fuel (Char.ofNat 9 :: acc) rest2
        else if e = 'u' then
          match rest2 with
          | h1 :: h2 :: h3 :: h4 :: rest3 =>
            match hexVal h1, hexVal h2, hexVal h3, hexVal h4 with
            | some a, some b, some c2, some d =>
              let n1 := ((a * 16 + b) * 16 + c2) * 16 + d
              if 55296 ≤ n1 ∧ n1 ≤ 56319 then
                match rest3 with
                | e2 :: u2 :: rest5 =>
                  if e2 = bslash ∧ u2 = 'u' then
                    match rest5 with
                    | g1 :: g2 :: g3 :: g4 :: rest4 =>
                      match hexVal g1, hexVal g2, hexVal g3, hexVal g4 with
                      | some a2, some b2, some c3, some d2 =>
                        let n2 := ((a2 * 16 + b2) * 16 + c3) * 16 + d2
                        if 56320 ≤ n2 ∧ n2 ≤ 57343 then
                          parseStrAux fuel
                            (Char.ofNat (65536 + (n1 - 55296) * 1024 + (n2 - 56320)) :: acc) rest4
                        else parseStrAux fuel (Char.ofNat n1 :: acc) rest3
                      | _, _, _, _ => none
                    | _ => none
                  else parseStrAux fuel (Char.ofNat n1 :: acc) rest3
                | _ => parseStrAux fuel (Char.ofNat n1 :: acc) rest3
              else parseStrAux fuel (Char.ofNat n1 :: acc) rest3
            | _, _, _, _ => none
          | _ => none
        else none
    else if c.toNat < 32 then none
    else parseStrAux fuel (c :: acc) rest

/-- Parse a JSON string body with enough fuel for its input. -/
def parseStr (l : List Char) : Option (List Char × List Char) :=
  parseStrAux (l.length + 1) [] l

/-- Optional fraction part `(\.\d+)?` of the number regex: value of the
fraction digits, their count, and the rest. -/
def parseFrac (l : List Char) : Nat × Nat × List Char :=
  match l with
  | c :: rest =>
    if c = '.' then
      match rest.span isDigitCh with
      | (d :: ds, r) => (digitsToNat (d :: ds), (d :: ds).length, r)
      | ([], _) => (0, 0, l)
    else (0, 0, l)
  | [] => (0, 0, l)

/-- Optional exponent part `([eE][-+]?\d+)?` of the number regex. -/
def parseExp (l : List Char) : Int × List Char :=
  match l with
  | c :: rest =>
    if c = 'e' ∨ c = 'E' then
      match rest with
      | s :: rest2 =>
        if s = '+' ∨ s = '-' then
          match rest2.span isDigitCh with
          | (d :: ds, r) =>
            ((if s = '-' then -(digitsToNat (d :: ds) : Int) else (digitsToNat (d :: ds) : Int)), r)
          | ([], _) => (0, l)
        else
          match rest.span isDigitCh with
          | (d :: ds, r) => ((digitsToNat (d :: ds) : Int), r)
          | ([], _) => (0, l)
      | [] => (0, l)
    else (0, l)
  | [] => (0, l)

/-- Exact rational value of a decimal literal with integer part `ip`,
fraction digits of value `fv` and count `fk`, and exponent `e`. -/
def mkQNum (ip fv fk : Nat) (e : Int) : ℚ :=
  ((ip : ℚ) + (fv : ℚ) / (10 : ℚ) ^ fk) * (10 : ℚ) ^ e

/-- Unsigned part of the number regex `(0|[1-9]\d*)(\.\d+)?([eE][-+]?\d+)?`:
a leading `0` is never followed by more integer digits. -/
def parseNumCore (l : List Char) : Option (ℚ × List Char) :=
  match l with
  | [] => none
  | c :: rest =>
    if c = '0' then
      match parseFrac rest with
      | (fv, fk, r1) =>
        match parseExp r1 with
        | (e, r2) => some (mkQNum 0 fv fk e, r2)
    else if isDigitCh c then
      match rest.span isDigitCh with
      | (ds, rest2) =>
        match parseFrac rest2 with
        | (fv, fk, r1) =>
          match parseExp r1 with
          | (e, r2) => some (mkQNum (digitsToNat (c :: ds)) fv fk e, r2)
    else none

/-- A JSON number literal per the CPython regex `NUMBER_RE`, with optional sign. -/
def parseNum (l : List Char) : Option (ℚ × List Char) :=
  match l with
  | [] => none
  | c :: rest =>
    if c = '-' then (parseNumCore rest).map (fun p => (-p.1, p.2))
    else parseNumCore l

/-- The non-recursive alternatives of the scanner, tried in the CPython
order: `null`, `true`, `false`, a number, `NaN`, `Infinity`,
`-Infinity`. -/
def parseScalar (l : List Char) : Option (Json × List Char) :=
  match stripPre ['n', 'u', 'l', 'l'] l with
  | some r => some (Json.jnull, r)
  | none =>
  match stripPre ['t', 'r', 'u', 'e'] l with
  | some r => some (Json.jbool true, r)
  | none =>
  match stripPre ['f', 'a', 'l', 's', 'e'] l with
  | some r => some (Json.jbool false, r)
  | none =>
  match parseNum l with
  | some (q, r) => some (Json.jnum q, r)
  | none =>
  match stripPre ['N', 'a', 'N'] l with
  | some r => some (Json.jnan, r)
  | none =>
  match stripPre ['I', 'n', 'f', 'i', 'n', 'i', 't', 'y'] l with
  | some r => some (Json.jinf false, r)
  | none =>
  match stripPre ['-', 'I', 'n', 'f', 'i', 'n', 'i', 't', 'y'] l with
  | some r => some (Json.jinf true, r)
  | none => none

/-- Last-wins insertion into an association list, keeping the position of
an existing key: the behaviour of `pairs[key] = value` on a `dict`. -/
def insKV : List (List Char × Json) → List Char → Json → List (List Char × Json)
  | [], k, v => [(k, v)]
  | (k0, v0) :: rest, k, v =>
    if k0 = k then (k0, v) :: rest else (k0, v0) :: insKV rest k v

/-- Intermediate results of the scanner. -/
inductive PRes where
  | v : Json → PRes
  | kvs : List (List Char × Json) → PRes
  | els : List Json → PRes

/-- Scanner phases: a value; an object right after `{` (whitespace
skipped); an object positioned at the opening quote of the next key; an
object after a member (expecting `}` or `,`); an array right after `[`
(whitespace skipped); an array after an element (expecting `]` or `,`). -/
inductive PPhase where
  | pval : PPhase
  | pobjFirst : PPhase
  | pobjKey : List (List Char × Json) → PPhase
  | pobjTail : List (List Char × Json) → PPhase
  | parrFirst : PPhase
  | parrTail : List Json → PPhase

/-- The recursive scanner, mirroring the CPython functions `scan_once`/`JSONObject`/
`JSONArray`.  The fuel argument only forces termination; every recursive
call consumes input, and `jsonLoads` supplies more fuel than any input can
use. -/
def jsonRun : Nat → PPhase → List Char → Option (PRes × List Char)
  | 0, _, _ => none
  | Nat.succ fuel, ph, cs =>
    match ph with
    | PPhase.pval =>
      match cs with
      | [] => none
      | c :: rest =>
        if c = dquote then (parseStr rest).map (fun p => (PRes.v (Json.jstr p.1), p.2))
        else if c = lbrace then
          match jsonRun fuel PPhase.pobjFirst (skipWs rest) with
          | some (PRes.kvs l, r) => some (PRes.v (Json.jobj l), r)
          | _ => none
        else if c = '[' then
          match jsonRun fuel PPhase.parrFirst (skipWs rest) with
          | some (PRes.els l, r) => some (PRes.v (Json.jarr l), r)
          | _ => none
        else (parseScalar cs).map (fun p => (PRes.v p.1, p.2))
    | PPhase.pobjFirst =>
      match cs with
      | [] => none
      | c :: _ =>
        if c = rbrace then some (PRes.kvs [], cs.tail)
        else if c = dquote then jsonRun fuel (PPhase.pobjKey []) cs
        else none
    | PPhase.pobjKey acc =>
      match cs with
      | [] => none
      | c :: rest =>
        if c = dquote then
          match parseStr rest with
          | some (k, r1) =>
            match skipWs r1 with
            | c2 :: r2 =>
              if c2 = ':' then
                match jsonRun fuel PPhase.pval (skipWs r2) with
                | some (PRes.v v, r3) => jsonRun fuel (PPhase.pobjTail (insKV acc k v)) (skipWs r3)
                | _ => none
              else none
            | [] => none
          | none => none
        else none
    | PPhase.pobjTail acc =>
      match cs with
      | [] => none
      | c :: rest =>
        if c = rbrace then some (PRes.kvs acc, rest)
        else if c = ',' then
          match skipWs rest with
          | c2 :: r2 =>
            if c2 = dquote then jsonRun fuel (PPhase.pobjKey acc) (c2 :: r2) else none
          | [] => none
        else none
    | PPhase.parrFirst =>
      match cs with
      | [] => none
      | c :: _ =>
        if c = ']' then some (PRes.els [], cs.tail)
        else
          match jsonRun fuel PPhase.pval cs with
          | some (PRes.v v, r1) => jsonRun fuel (PPhase.parrTail [v]) (skipWs r1)
          | _ => none
    | PPhase.parrTail acc =>
      match cs with
      | [] => none
      | c :: rest =>
        if c = ']' then some (PRes.els acc.reverse, rest)
        else if c = ',' then
          match jsonRun fuel PPhase.pval (skipWs rest) with
          | some (PRes.v v, r1) => jsonRun fuel (PPhase.parrTail (v :: acc)) (skipWs r1)
          | _ => none
        else none

/-- The model of `json.loads`: skip leading whitespace, scan one value,
require only whitespace to remain (otherwise CPython raises `Extra
data`). -/
def jsonLoads (cs : List Char) : Option Json :=
  match jsonRun (2 * cs.length + 8) PPhase.pval (skipWs cs) with
  | some (PRes.v v, rest) => if skipWs rest = [] then some v else none
  | _ => none

/-- Whether an optional parse result is a JSON object (a mapping). -/
def isObjO : Option Json → Bool
  | some (Json.jobj _) => true
  | _ => false

/-! ### The JSON recovery pipeline of `_extract_json` -/

/-- Whitespace removed by the Python `str.strip()` builtin: space, tab, newline,
vertical tab, form feed, carriage return (ASCII range; CPython also strips
some non-ASCII Unicode spaces, which are outside the repertoire used
here). -/
def pyIsSpace (c : Char) : Bool :=
  decide (c.toNat = 32 ∨ (9 ≤ c.toNat ∧ c.toNat ≤ 13))

/-- Python `str.strip()`: remove leading and trailing whitespace. -/
def pyStrip (l : List Char) : List Char :=
  ((l.dropWhile pyIsSpace).reverse.dropWhile pyIsSpace).reverse

/-- The search `findSubAux pat i l` yields the least `j ≥ i` (relative to the start of the
original list) at which `pat` occurs in `l`, scanning left to right. -/
def findSubAux (pat : List Char) : Nat → List Char → Option Nat
  | i, [] => if pat.isEmpty then some i else none
  | i, c :: cs => if listStarts pat (c :: cs) then some i else findSubAux pat (i + 1) cs

/-- Python `text.find(pat)`, as an `Option` (CPython returns `-1` for
`none`). -/
def findSub (t pat : List Char) : Option Nat := findSubAux pat 0 t

/-- Python `text.find(pat, start)`: search from index `start`. -/
def findSubFrom (t pat : List Char) (start : Nat) : Option Nat :=
  (findSubAux pat 0 (t.drop start)).map (· + start)

/-- Python slice `t[a:b]` for `a ≤ b`. -/
def pySlice (t : List Char) (a b : Nat) : List Char := (t.drop a).take (b - a)

/-- The fence marker made of three backticks. -/
def tickFence : List Char := String.data "```"

/-- The JSON fence marker: three backticks followed by `json`. -/
def jsonFence : List Char := String.data "```json"

/-- The fence-stripping step of `_extract_json` (lines 212-222): if
the JSON fence marker occurs, take the (re-stripped) text between the end of
its first occurrence and the next plain fence marker, provided that span is
non-empty; otherwise, if the plain fence marker occurs, do the same starting after its first
occurrence; in all remaining cases keep the text unchanged. -/
def fenceStep (t : List Char) : List Char :=
  match findSub t jsonFence with
  | some i =>
    match findSubFrom t tickFence (i + 7) with
    | some e => if i + 7 < e then pyStrip (pySlice t (i + 7) e) else t
    | none => t
  | none =>
    match findSub t tickFence with
    | some i =>
      match findSubFrom t tickFence (i + 3) with
      | some e => if i + 3 < e then pyStrip (pySlice t (i + 3) e) else t
      | none => t
    | none => t

/-- The brace-depth scan of `_extract_json` (lines 227-236): the position
one past the first closing brace at which the running count of opening
minus closing braces
returns to zero, or `none` if it never does.  Characters inside string
literals are not treated specially. -/
def braceEndAux : Int → Nat → List Char → Option Nat
  | _, _, [] => none
  | d, i, c :: rest =>
    if c = lbrace then braceEndAux (d + 1) (i + 1) rest
    else if c = rbrace then
      if d - 1 = 0 then some (i + 1) else braceEndAux (d - 1) (i + 1) rest
    else braceEndAux d (i + 1) rest

/-- The brace-depth scan started with count `0` at the head of the text. -/
def braceEnd (t : List Char) : Option Nat := braceEndAux 0 0 t

/-- The brace-truncation step of `_extract_json` (lines 225-238): if the
text starts with an opening brace and the brace scan finds a closing position,
truncate there; otherwise keep the text unchanged. -/
def braceStep (t : List Char) : List Char :=
  if t.head? = some lbrace then
    match braceEnd t with
    | some e => t.take e
    | none => t
  else t

/-- The text that `_extract_json` finally hands to `json.loads`: strip the
reply, strip fences, truncate at the matching top-level brace. -/
def recoverText (resp : List Char) : List Char :=
  braceStep (fenceStep (pyStrip resp))

/-- The value computed by `_extract_json` (lines 207-248), `None` when the
final parse raises `json.JSONDecodeError`. -/
def extract_json (resp : List Char) : Option Json :=
  jsonLoads (recoverText resp)

/-- The fixed debug location used by `_extract_json` on parse failure. -/
def debugPath : String := "./output/debug_response.txt"

/-- Result and observable file-system effect of `_extract_json`: on parse
success no file is written; on parse failure the original, unmodified
reply text is written to `debugPath` and `None` is returned. -/
structure ExtractOutcome where
  result : Option Json
  debugWrite : Option (String × String)

/-- The function `_extract_json` together with its debug-artifact side effect. -/
def extract_json_full (resp : List Char) : ExtractOutcome :=
  match jsonLoads (recoverText resp) with
  | some v => ⟨some v, none⟩
  | none => ⟨none, some (debugPath, String.mk resp)⟩

/-! ### Helper lemmas on substring search -/

/-- A pattern with a suffix appended matches at a position only if the
pattern alone does. -/
theorem listStarts_of_append (a b l : List Char) (h : listStarts (a ++ b) l = true) :
    listStarts a l = true := by
  induction a generalizing l with
  | nil => rfl
  | cons p ps ih =>
    cases l with
    | nil => simp [listStarts] at h
    | cons c cs =>
      simp only [List.cons_append, listStarts, Bool.and_eq_true] at h ⊢
      exact ⟨h.1, ih cs h.2⟩

/-- If the plain fence marker does not occur in a text, neither does the
JSON fence marker. -/
theorem findSub_fence_mono (t : List Char) (h : findSub t tickFence = none) :
    findSub t jsonFence = none := by
  unfold findSub at h ⊢
  suffices hs : ∀ i, findSubAux tickFence i t = none → findSubAux jsonFence i t = none from
    hs 0 h
  clear h
  induction t with
  | nil => intro i h; exact h
  | cons c cs ih =>
    intro i h
    simp only [findSubAux] at h ⊢
    by_cases hst : listStarts tickFence (c :: cs) = true
    · rw [if_pos hst] at h; exact absurd h (by simp)
    · rw [if_neg hst] at h
      have hj : ¬ listStarts jsonFence (c :: cs) = true := by
        intro hj
        exact hst (listStarts_of_append tickFence (String.data "json") (c :: cs) hj)
      rw [if_neg hj]
      exact ih (i + 1) h

/-! ### Theorems: claims C1, C2, C3, C9 -/

/-- The reply of the C1 counterexample: a bare, syntactically valid JSON
object (it parses and is a mapping) whose only member value is the
one-character string holding a closing brace. -/
def exC1 : List Char := String.data "\x7b\"a\": \"\x7d\"\x7d"

/-- C1 (counterexample): this reply is its own trimmed text, contains no
fence marker, and is a valid bare JSON object, yet `_extract_json` returns
`None` instead of its parse — the brace-depth scan stops at the brace
inside the string literal and truncates the object mid-string. -/
theorem C1_counterexample :
    pyStrip exC1 = exC1 ∧ findSub exC1 tickFence = none ∧
    (jsonLoads exC1).isSome = true ∧ isObjO (jsonLoads exC1) = true ∧
    extract_json exC1 = none :=
  ⟨rfl, rfl, rfl, rfl, rfl⟩

/-- C1 (amended): if the trimmed reply is a bare valid JSON object with no
fence marker, and the character-level brace count of the trimmed text
first returns to zero at its very end (or never) — in particular whenever
no closing brace occurs inside a string literal before the end —
`_extract_json` returns exactly the strict parse of that text. -/
theorem C1_extract_idem (s : List Char) (v : Json)
    (hfence : findSub (pyStrip s) tickFence = none)
    (hbrace : braceEnd (pyStrip s) = some (pyStrip s).length ∨ braceEnd (pyStrip s) = none)
    (hparse : jsonLoads (pyStrip s) = some v) :
    extract_json s = some v := by
  have hjson : findSub (pyStrip s) jsonFence = none := findSub_fence_mono _ hfence
  unfold extract_json recoverText
  have hf : fenceStep (pyStrip s) = pyStrip s := by
    unfold fenceStep
    rw [hjson, hfence]
  rw [hf]
  unfold braceStep
  by_cases hh : (pyStrip s).head? = some lbrace
  · rw [if_pos hh]
    rcases hbrace with hb | hb
    · rw [hb]
      show jsonLoads (List.take (pyStrip s).length (pyStrip s)) = some v
      rw [List.take_length]
      exact hparse
    · rw [hb]
      exact hparse
  · rw [if_neg hh]
    exact hparse

/-- Input for the C1 witness: a clean bare JSON object. -/
def exC1w : List Char := String.data "\x7b\"a\": 1\x7d"

/-- Witness for `C1_extract_idem` at a concrete clean reply. -/
theorem C1_witness :
    ∃ v, jsonLoads (pyStrip exC1w) = some v ∧ extract_json exC1w = some v := by
  match hv : jsonLoads (pyStrip exC1w) with
  | some v =>
    exact ⟨v, rfl, C1_extract_idem exC1w v (by rfl) (Or.inl (by rfl)) hv⟩
  | none =>
    have : (jsonLoads (pyStrip exC1w)).isSome = true := by rfl
    rw [hv] at this
    exact absurd this (by simp)

/-- The reply of the C2 counterexample: a syntactically valid JSON object
(whose only member value is the one-character string holding a closing
brace) immediately followed by trailing commentary, with no fences. -/
def exC2bad : List Char := String.data "\x7b\"a\": \"\x7d\"\x7d note"

/-- The valid JSON object prefix of `exC2bad`. -/
def exC2badObj : List Char := String.data "\x7b\"a\": \"\x7d\"\x7d"

/-- C2 (counterexample): the reply decomposes as a valid JSON object (it
parses and is a mapping) followed by trailing commentary, with no fence
markers, yet `_extract_json` returns `None`, not the parse of that object:
the brace-depth scan stops at the brace inside the string literal, so the
truncated span is not the object. -/
theorem C2_counterexample :
    exC2bad = exC2badObj ++ String.data " note" ∧
    pyStrip exC2bad = exC2bad ∧
    findSub exC2bad tickFence = none ∧
    (jsonLoads exC2badObj).isSome = true ∧ isObjO (jsonLoads exC2badObj) = true ∧
    extract_json exC2bad = none :=
  ⟨rfl, rfl, rfl, rfl, rfl, rfl⟩

/-- C2 (amended): on a fence-free reply whose trimmed text begins with an
opening brace, `_extract_json` truncates the trimmed text at the position
where the character-level brace depth first returns to zero and returns
the strict parse of exactly that span (the parse of the first top-level
object whenever no closing brace occurs inside a string literal before
its end); if the depth never returns to zero the trimmed text is parsed
unmodified. -/
theorem C2_brace_truncation (s : List Char)
    (hfence : findSub (pyStrip s) tickFence = none)
    (hhead : (pyStrip s).head? = some lbrace) :
    (∀ p, braceEnd (pyStrip s) = some p →
      extract_json s = jsonLoads (List.take p (pyStrip s))) ∧
    (braceEnd (pyStrip s) = none → extract_json s = jsonLoads (pyStrip s)) := by
  have hjson : findSub (pyStrip s) jsonFence = none := findSub_fence_mono _ hfence
  have hf : fenceStep (pyStrip s) = pyStrip s := by
    unfold fenceStep
    rw [hjson, hfence]
  constructor
  · intro p hp
    unfold extract_json recoverText
    rw [hf]
    unfold braceStep
    rw [if_pos hhead, hp]
  · intro hp
    unfold extract_json recoverText
    rw [hf]
    unfold braceStep
    rw [if_pos hhead, hp]

/-- The C2 example reply of the spec itself: an object with a nested object,
followed by trailing commentary. -/
def exC2 : List Char := String.data "\x7b\"a\": \x7b\"b\": 1\x7d\x7d Some trailing note."

/-- The object prefix of `exC2`. -/
def exC2obj : List Char := String.data "\x7b\"a\": \x7b\"b\": 1\x7d\x7d"

/-- Witness for `C2_brace_truncation` at the example of the spec: the brace scan
finds position 15, the truncated span is exactly the object, and the
extraction returns its (successful) parse. -/
theorem C2_witness :
    braceEnd (pyStrip exC2) = some 15 ∧
    List.take 15 (pyStrip exC2) = exC2obj ∧
    extract_json exC2 = jsonLoads exC2obj ∧
    (jsonLoads exC2obj).isSome = true ∧ isObjO (jsonLoads exC2obj) = true := by
  have h := (C2_brace_truncation exC2 (by rfl) (by rfl)).1 15 (by rfl)
  exact ⟨rfl, rfl, h, rfl, rfl⟩

/-- C3: on parse failure `_extract_json` writes the original, unmodified
reply (not the fence-stripped or brace-truncated text) to the fixed debug
location `./output/debug_response.txt` and returns `None` instead of
raising. -/
theorem C3_debug_artifact (resp : List Char)
    (h : jsonLoads (recoverText resp) = none) :
    (extract_json_full resp).result = none ∧
    (extract_json_full resp).debugWrite =
      some ("./output/debug_response.txt", String.mk resp) := by
  unfold extract_json_full
  rw [h]
  exact ⟨rfl, rfl⟩

/-- A reply on which the recovered text fails to parse. -/
def exC3 : List Char := String.data "no json here"

/-- Witness for `C3_debug_artifact` at a concrete unparseable reply. -/
theorem C3_witness :
    (extract_json_full exC3).result = none ∧
    (extract_json_full exC3).debugWrite =
      some ("./output/debug_response.txt", "no json here") :=
  C3_debug_artifact exC3 (by rfl)

/-- The C9 failing input: a reply that is a bare JSON array. -/
def exC9 : List Char := String.data "[1, 2]"

/-- C9 (code evaluated at the failing input): on the reply `"[1, 2]"` the
parse of the recovered text succeeds, and `_extract_json` returns the
parsed array unchanged — a value that is not a mapping, contradicting the
declared return type `Optional[Dict[str, Any]]`. -/
theorem C9_not_mapping :
    extract_json exC9 = jsonLoads exC9 ∧
    (extract_json exC9).isSome = true ∧
    isObjO (extract_json exC9) = false :=
  ⟨rfl, rfl, rfl⟩

/-! ### The prompt template and `_build_prompt`

`FORM_ANALYSIS_PROMPT` (lines 10-161 of `form_analyzer.py`) is represented
as the list of its `str.format` segments in source order: literal text
(with the `{{`/`}}` escapes already collapsed to the literal braces that
`str.format` produces, and split at line ends for readability) and the
three placeholders `{form_name}`, `{form_name_key}`, `{category}`. -/

/-- One segment of the format template: a literal, or one of the three
placeholders. -/
inductive Seg where
  | lit : String → Seg
  | fname : Seg
  | fkey : Seg
  | fcat : Seg
deriving DecidableEq

def FORM_ANALYSIS_SEGS : List Seg := [
  Seg.lit "Analyze this PDF form and generate a complete JSON structure for my fillable PDF form generator.\n",
  Seg.lit "\n",
  Seg.lit "**User Provided Info:**\n",
  Seg.lit "- Form Name: ",
  Seg.fname,
  Seg.lit "\n",
  Seg.lit "- Category: ",
  Seg.fcat,
  Seg.lit "\n",
  Seg.lit "\n",
  Seg.lit "## OUTPUT FORMAT\n",
  Seg.lit "\n",
  Seg.lit "\x7b\n",
  Seg.lit "  \"",
  Seg.fkey,
  Seg.lit "\": \x7b\n",
  Seg.lit "    \"settings\": \x7b\x7d,\n",
  Seg.lit "    \"content\": \x7b\n",
  Seg.lit "      \"",
  Seg.fkey,
  Seg.lit "\": \x7b\n",
  Seg.lit "        \"form_name\": \"",
  Seg.fkey,
  Seg.lit "\",\n",
  Seg.lit "        \"submission_url\": \"\x7b\x7b%/processors/forms/pdf_form_email\x7d\x7d\",\n",
  Seg.lit "        \"subject\": \"Form Submission: ",
  Seg.fname,
  Seg.lit "\",\n",
  Seg.lit "        \"confirmation\": \"/custom/content/thank_you/thank_you.html\",\n",
  Seg.lit "        \"pdf\": \"/custom/pdfs/",
  Seg.fkey,
  Seg.lit ".pdf\",\n",
  Seg.lit "        \"category\": \"",
  Seg.fcat,
  Seg.lit "\",\n",
  Seg.lit "        \"type\": \"intake\",\n",
  Seg.lit "        \"fields\": [\n",
  Seg.lit "          // ALL FIELDS GO HERE\n",
  Seg.lit "        ]\n",
  Seg.lit "      \x7d\n",
  Seg.lit "    \x7d\n",
  Seg.lit "  \x7d\n",
  Seg.lit "\x7d\n",
  Seg.lit "\n",
  Seg.lit "---\n",
  Seg.lit "\n",
  Seg.lit "## REQUIRED WRAPPER (Start of fields array)\n",
  Seg.lit "\n",
  Seg.lit "\x7b\"name\": \"pdf_download\", \"label\": \"<i class=\\\"fad fa-file-download\\\"></i>Download Printable Version\", \"type\": \"pdf_download\"\x7d,\n",
  Seg.lit "\x7b\"name\": \"form_container\", \"type\": \"group_start\"\x7d,\n",
  Seg.lit "\x7b\"name\": \"form_header\", \"label\": \"<h1>",
  Seg.fname,
  Seg.lit "</h1>\", \"type\": \"label\"\x7d,\n",
  Seg.lit "\x7b\"name\": \"form_content_container\", \"type\": \"group_start\"\x7d,\n",
  Seg.lit "\n",
  Seg.lit "## REQUIRED CLOSING (End of fields array)\n",
  Seg.lit "\n",
  Seg.lit "\x7b\"label\": \"Submit\", \"type\": \"submit\"\x7d,\n",
  Seg.lit "\x7b\"type\": \"group_end\"\x7d,\n",
  Seg.lit "\x7b\"type\": \"group_end\"\x7d\n",
  Seg.lit "\n",
  Seg.lit "---\n",
  Seg.lit "\n",
  Seg.lit "## FIELD TYPES\n",
  Seg.lit "\n",
  Seg.lit "**Text input:** `\x7b\"name\": \"field_name\", \"label\": \"Label\", \"email_label\": \"Label\", \"type\": \"text\", \"required\": false\x7d`\n",
  Seg.lit "\n",
  Seg.lit "**Date field:** `\x7b\"name\": \"field_name\", \"label\": \"Label\", \"email_label\": \"Label\", \"type\": \"date\", \"required\": false\x7d`\n",
  Seg.lit "\n",
  Seg.lit "**Email:** `\x7b\"name\": \"email_address\", \"label\": \"Email Address\", \"email_label\": \"Email Address\", \"type\": \"email\", \"required\": false\x7d`\n",
  Seg.lit "\n",
  Seg.lit "**Textarea (for \"explain\", \"describe\", \"list\" fields):** `\x7b\"name\": \"field_name\", \"label\": \"Label\", \"email_label\": \"Label\", \"type\": \"textarea\", \"required\": false\x7d`\n",
  Seg.lit "\n",
  Seg.lit "**Select dropdown:** `\x7b\"name\": \"field_name\", \"label\": \"Label\", \"email_label\": \"Label\", \"type\": \"select\", \"option\": [\"Option 1\", \"Option 2\"]\x7d`\n",
  Seg.lit "\n",
  Seg.lit "**Yes/No question (use radio):** `\x7b\"name\": \"field_name\", \"label\": \"Question?\", \"email_label\": \"Question?\", \"type\": \"radio\", \"option\": \x7b\"yes\": \"Yes\", \"no\": \"No\"\x7d\x7d`\n",
  Seg.lit "\n",
  Seg.lit "**Multiple choice - pick ONE (use radio):** `\x7b\"name\": \"field_name\", \"label\": \"Label\", \"email_label\": \"Label\", \"type\": \"radio\", \"option\": [\"Option A\", \"Option B\", \"Option C\"]\x7d`\n",
  Seg.lit "\n",
  Seg.lit "**Multiple choice - pick MANY (use checkbox):** `\x7b\"name\": \"field_name\", \"label\": \"Label\", \"email_label\": \"Label\", \"type\": \"checkbox\", \"option\": [\"Option 1\", \"Option 2\", \"Option 3\"]\x7d`\n",
  Seg.lit "\n",
  Seg.lit "**Agreement checkbox:** `\x7b\"name\": \"acknowledgement\", \"label\": \"\", \"email_label\": \"\", \"type\": \"checkbox\", \"option\": \x7b\"checked\": \"<p>I certify that the information provided is accurate...</p>\"\x7d\x7d`\n",
  Seg.lit "\n",
  Seg.lit "**Section header (h3):** `\x7b\"name\": \"content\", \"label\": \"<h3>Section Title</h3>\", \"type\": \"label\"\x7d`\n",
  Seg.lit "\n",
  Seg.lit "**Subheader with instruction (h4):** `\x7b\"name\": \"\", \"label\": \"<h4>Subheader <span>Instructions go in span tags</span></h4>\", \"type\": \"label\"\x7d`\n",
  Seg.lit "\n",
  Seg.lit "**Paragraph content:** `\x7b\"name\": \"\", \"label\": \"<p>Paragraph text here...</p>\", \"type\": \"label\"\x7d`\n",
  Seg.lit "\n",
  Seg.lit "---\n",
  Seg.lit "\n",
  Seg.lit "## LAYOUT GROUPS - ONLY USE THESE EXACT NAMES\n",
  Seg.lit "\n",
  Seg.lit "**CRITICAL: You may ONLY use these exact group names. Do NOT invent new group names like \"allergies_column1\", \"medical_conditions\", etc. Unrecognized group names will be IGNORED and fields will not be grouped.**\n",
  Seg.lit "\n",
  Seg.lit "**VALID LAYOUT GROUPS:**\n",
  Seg.lit "\n",
  Seg.lit "1. **two_columns** - Use for lists of 2-23 similar Yes/No radio questions or checkboxes.\n",
  Seg.lit "   \x7b\"name\": \"two_columns\", \"type\": \"group_start\"\x7d\n",
  Seg.lit "   ... put ALL related fields here ...\n",
  Seg.lit "   \x7b\"type\": \"group_end\"\x7d\n",
  Seg.lit "\n",
  Seg.lit "2. **four_columns** - Use for lists of 24 or more similar Yes/No radio questions. This creates a more compact layout for long medical history sections.\n",
  Seg.lit "   \x7b\"name\": \"four_columns\", \"type\": \"group_start\"\x7d\n",
  Seg.lit "   ... put ALL related fields here ...\n",
  Seg.lit "   \x7b\"type\": \"group_end\"\x7d\n",
  Seg.lit "\n",
  Seg.lit "3. **name_details** - ONLY when form has EXACTLY 3 separate name fields: Last Name, First Name, Middle Initial\n",
  Seg.lit "   \x7b\"name\": \"*name_details\", \"type\": \"group_start\"\x7d\n",
  Seg.lit "   \x7b\"name\": \"last_name\", \"label\": \"Last Name\", ...\x7d\n",
  Seg.lit "   \x7b\"name\": \"first_name\", \"label\": \"First Name\", ...\x7d\n",
  Seg.lit "   \x7b\"name\": \"middle_initial\", \"label\": \"M.I.\", ...\x7d\n",
  Seg.lit "   \x7b\"type\": \"group_end\"\x7d\n",
  Seg.lit "\n",
  Seg.lit "4. **address_details** - ONLY when form needs EXACTLY 4 address fields: Street, City, State, Zip\n",
  Seg.lit "   \x7b\"name\": \"*address_details\", \"type\": \"group_start\"\x7d\n",
  Seg.lit "   \x7b\"name\": \"mailing_address\", \"label\": \"Mailing Address\", ...\x7d\n",
  Seg.lit "   \x7b\"name\": \"city\", \"label\": \"City\", ...\x7d\n",
  Seg.lit "   \x7b\"name\": \"state\", \"label\": \"State\", ...\x7d\n",
  Seg.lit "   \x7b\"name\": \"zip\", \"label\": \"Zip\", ...\x7d\n",
  Seg.lit "   \x7b\"type\": \"group_end\"\x7d\n",
  Seg.lit "\n",
  Seg.lit "**Container groups (for structure only, no layout effect):**\n",
  Seg.lit "- form_container\n",
  Seg.lit "- form_content_container\n",
  Seg.lit "\n",
  Seg.lit "---\n",
  Seg.lit "\n",
  Seg.lit "## HOW TO USE COLUMN GROUPS\n",
  Seg.lit "\n",
  Seg.lit "**Threshold rule: Count the Yes/No radio questions in a section:**\n",
  Seg.lit "- 2-23 radio questions → use \"two_columns\"\n",
  Seg.lit "- 24+ radio questions → use \"four_columns\" (more compact for long medical history lists)\n",
  Seg.lit "\n",
  Seg.lit "**Note:** It\x27s fine to include 1-2 text fields (like \"Type and Date:\" follow-ups) within a column group. Base your column choice on the radio button count, not strict uniformity.\n",
  Seg.lit "\n",
  Seg.lit "**Example: PDF shows a long list of Yes/No medical questions (24+)**\n",
  Seg.lit "\n",
  Seg.lit "If the PDF shows a medical history section with many conditions (Abnormal Bleeding, Blood Disease, Tuberculosis, Heart Disease, etc.), count them. If there are 24 or more, use four_columns:\n",
  Seg.lit "\n",
  Seg.lit "\x7b\"name\": \"four_columns\", \"type\": \"group_start\"\x7d\n",
  Seg.lit "\x7b\"name\": \"abnormal_bleeding\", \"label\": \"Abnormal Bleeding\", \"email_label\": \"Abnormal Bleeding\", \"type\": \"radio\", \"option\": \x7b\"yes\": \"Yes\", \"no\": \"No\"\x7d\x7d\n",
  Seg.lit "\x7b\"name\": \"blood_disease\", \"label\": \"Blood Disease\", \"email_label\": \"Blood Disease\", \"type\": \"radio\", \"option\": \x7b\"yes\": \"Yes\", \"no\": \"No\"\x7d\x7d\n",
  Seg.lit "... all 24+ conditions ...\n",
  Seg.lit "\x7b\"type\": \"group_end\"\x7d\n",
  Seg.lit "\n",
  Seg.lit "**Example: Shorter list (under 24 questions)**\n",
  Seg.lit "\n",
  Seg.lit "For allergy sections or shorter condition lists with fewer than 24 items, use two_columns:\n",
  Seg.lit "\n",
  Seg.lit "\x7b\"name\": \"two_columns\", \"type\": \"group_start\"\x7d\n",
  Seg.lit "\x7b\"name\": \"allergy_aspirin\", \"label\": \"Aspirin\", \"email_label\": \"Allergy - Aspirin\", \"type\": \"radio\", \"option\": \x7b\"yes\": \"Yes\", \"no\": \"No\"\x7d\x7d\n",
  Seg.lit "... up to 23 items ...\n",
  Seg.lit "\x7b\"type\": \"group_end\"\x7d\n",
  Seg.lit "\n",
  Seg.lit "The PDF generator will automatically arrange fields into the appropriate columns.\n",
  Seg.lit "\n",
  Seg.lit "---\n",
  Seg.lit "\n",
  Seg.lit "## CRITICAL RULES\n",
  Seg.lit "\n",
  Seg.lit "1. Field naming: lowercase, underscores, no special characters\n",
  Seg.lit "2. Every group_start MUST have a matching group_end\n",
  Seg.lit "3. **ONLY use the exact group names listed above (two_columns, four_columns, name_details, address_details, form_container, form_content_container). Do NOT invent custom group names.**\n",
  Seg.lit "4. \"If yes, explain\" patterns - A few follow-up text fields within a column group are OK, but lengthy explanations should go outside\n",
  Seg.lit "5. Column groups should be MOSTLY similar field types - 1-2 text fields mixed in with radios is fine\n",
  Seg.lit "6. Return ONLY valid JSON - no comments, no trailing commas\n",
  Seg.lit "7. **COUNT Yes/No questions in a section: use \"two_columns\" for 2-23 items, use \"four_columns\" for 24+ items**\n",
  Seg.lit "\n",
  Seg.lit "Now analyze the PDF form image(s) and generate the complete JSON structure."
]

/-- Substitute one segment, given the form name, canonical key and
category. -/
def renderSeg (fn key cat : List Char) : Seg → List Char
  | Seg.lit s => s.data
  | Seg.fname => fn
  | Seg.fkey => key
  | Seg.fcat => cat

/-- The call `FORM_ANALYSIS_PROMPT.format(form_name=..., form_name_key=...,
category=...)` with the key already derived: concatenation of the rendered
segments. -/
def renderPromptL (fn cat : List Char) : List Char :=
  (FORM_ANALYSIS_SEGS.map (renderSeg fn (form_name_key fn) cat)).flatten

/-- Python `dict.get(k, d)` on a string-keyed dictionary, modelled as an
association list with unique keys. -/
def pyDictGet (inputs : List (String × String)) (k d : String) : String :=
  match inputs.find? (fun kv => kv.1 = k) with
  | some kv => kv.2
  | none => d

/-- The method `_build_prompt` (lines 191-205): read `form_name` and `category` from
the inputs dictionary with defaults `Untitled Form` and `General`,
derive the canonical key, and render the template. -/
def build_prompt (inputs : List (String × String)) : String :=
  let form_name := pyDictGet inputs "form_name" "Untitled Form"
  let category := pyDictGet inputs "category" "General"
  String.mk (renderPromptL form_name.data category.data)

/-! ### Counting verbatim occurrences

`countOccs pat t` is the number of positions of `t` at which `pat` occurs
(occurrences at every position are counted).  To keep every kernel
computation shallow, concrete counts over the full rendered prompt are
evaluated chunk by chunk through `countOccsChunks`, which is proved equal
to `countOccs` over the flattened chunks. -/

/-- Tail-recursive occurrence counter. -/
def countOccsAux (pat : List Char) : Nat → List Char → Nat
  | acc, [] => acc
  | acc, c :: cs => countOccsAux pat (acc + (if listStarts pat (c :: cs) then 1 else 0)) cs

/-- Number of positions of `t` at which `pat` occurs. -/
def countOccs (pat t : List Char) : Nat := countOccsAux pat 0 t

/-- Chunked occurrence counter: occurrences starting inside each chunk are
found in that chunk extended by a window of the following text one shorter
than the pattern. -/
def countOccsChunks (pat : List Char) : List (List Char) → Nat
  | [] => 0
  | a :: rest =>
    countOccs pat (a ++ rest.flatten.take (pat.length - 1)) + countOccsChunks pat rest

theorem countOccsAux_acc (pat l1 : List Char) :
    ∀ acc, countOccsAux pat acc l1 = acc + countOccsAux pat 0 l1 := by
  induction l1 with
  | nil => intro acc; simp [countOccsAux]
  | cons c cs ih =>
    intro acc
    simp only [countOccsAux]
    rw [ih (acc + _), ih (0 + _)]
    omega

theorem countOccs_cons (pat : List Char) (c : Char) (cs : List Char) :
    countOccs pat (c :: cs) =
      (if listStarts pat (c :: cs) then 1 else 0) + countOccs pat cs := by
  unfold countOccs
  simp only [countOccsAux]
  rw [countOccsAux_acc pat cs (0 + _)]
  omega

theorem listStarts_short : ∀ (pat t : List Char), t.length < pat.length →
    listStarts pat t = false := by
  intro pat
  induction pat with
  | nil => intro t h; simp at h
  | cons p ps ih =>
    intro t h
    cases t with
    | nil => rfl
    | cons c cs =>
      simp only [List.length_cons, Nat.add_lt_add_iff_right] at h
      simp only [listStarts, ih cs h, Bool.and_false]

theorem countOccs_short (pat : List Char) :
    ∀ t : List Char, t.length < pat.length → countOccs pat t = 0 := by
  intro t
  induction t with
  | nil => intro _; rfl
  | cons c cs ih =>
    intro h
    rw [countOccs_cons, listStarts_short pat (c :: cs) h]
    simp only [if_neg Bool.false_ne_true, Nat.zero_add]
    exact ih (Nat.lt_of_le_of_lt (Nat.le_succ cs.length) h)

theorem listStarts_take : ∀ (pat t : List Char),
    listStarts pat t = listStarts pat (t.take pat.length) := by
  intro pat
  induction pat with
  | nil => intro t; rfl
  | cons p ps ih =>
    intro t
    cases t with
    | nil => rfl
    | cons c cs =>
      simp only [List.length_cons, List.take_succ_cons, listStarts]
      rw [ih cs]

theorem take_append_take : ∀ (x : List Char) (m : Nat) (y : List Char),
    List.take m (x ++ y) = List.take m (x ++ y.take m) := by
  intro x
  induction x with
  | nil =>
    intro m y
    simp only [List.nil_append, List.take_take, inf_eq_left.mpr (Nat.le_refl m)]
  | cons c xs ih =>
    intro m y
    cases m with
    | zero => rfl
    | succ n =>
      simp only [List.cons_append, List.take_succ_cons]
      rw [ih n y, ih n (y.take (n + 1)), List.take_take,
        inf_eq_left.mpr (Nat.le_succ n)]

theorem take_cons_append_take (m : Nat) (c : Char) (x y : List Char) :
    List.take m ((c :: x) ++ y) = List.take m ((c :: x) ++ y.take (m - 1)) := by
  cases m with
  | zero => rfl
  | succ n =>
    simp only [List.cons_append, List.take_succ_cons, Nat.add_sub_cancel]
    rw [take_append_take x n y]

theorem countOccs_append_window (p0 : Char) (ps : List Char) :
    ∀ a b : List Char, countOccs (p0 :: ps) (a ++ b) =
      countOccs (p0 :: ps) (a ++ b.take ps.length) + countOccs (p0 :: ps) b := by
  intro a
  induction a with
  | nil =>
    intro b
    simp only [List.nil_append]
    rw [countOccs_short (p0 :: ps) (b.take ps.length)
      (by simp only [List.length_take, List.length_cons]
          exact Nat.lt_succ_of_le (Nat.min_le_left _ _))]
    omega
  | cons c a2 ih =>
    intro b
    have hto : listStarts (p0 :: ps) ((c :: a2) ++ b) =
        listStarts (p0 :: ps) ((c :: a2) ++ b.take ps.length) := by
      rw [listStarts_take (p0 :: ps) ((c :: a2) ++ b),
        listStarts_take (p0 :: ps) ((c :: a2) ++ b.take ps.length)]
      have h := take_cons_append_take (ps.length + 1) c a2 b
      simp only [Nat.add_sub_cancel] at h
      simp only [List.length_cons]
      rw [h]
    simp only [List.cons_append] at hto ⊢
    rw [countOccs_cons, countOccs_cons, ih b, hto]
    omega

theorem countOccs_flatten (p0 : Char) (ps : List Char) :
    ∀ chunks : List (List Char),
      countOccs (p0 :: ps) chunks.flatten = countOccsChunks (p0 :: ps) chunks := by
  intro chunks
  induction chunks with
  | nil => rfl
  | cons a rest ih =>
    rw [List.flatten_cons, countOccs_append_window p0 ps a rest.flatten, ih]
    rfl

/-! ### Theorems: claim C7 -/

/-- The form name of the running example of the spec. -/
def dentalName : String := "Dental Patient Intake - v2!"

/-- A category that occurs nowhere else in the rendered text. -/
def dentalCat : String := "Radiology"

/-- The prompt compiled for the example metadata. -/
def dentalPromptL : List Char := renderPromptL dentalName.data dentalCat.data

/-- The canonical key of the example form name. -/
def dKey : List Char := String.data "dental_patient_intake___v2"

/-- Occurrence counts over a compiled prompt reduce to the chunked count
over its rendered segments. -/
theorem countOccs_prompt (p0 : Char) (ps : List Char) (fn cat : String) :
    countOccs (p0 :: ps) (renderPromptL fn.data cat.data) =
      countOccsChunks (p0 :: ps)
        (FORM_ANALYSIS_SEGS.map (renderSeg fn.data (form_name_key fn.data) cat.data)) :=
  countOccs_flatten p0 ps _

set_option maxRecDepth 40000 in
theorem dental_key_count : countOccs dKey dentalPromptL = 4 := by
  show countOccs ('d' :: String.data "ental_patient_intake___v2")
    (renderPromptL dentalName.data dentalCat.data) = 4
  rw [countOccs_prompt]
  decide

set_option maxRecDepth 40000 in
theorem dental_cat_count : countOccs dentalCat.data dentalPromptL = 2 := by
  show countOccs ('R' :: String.data "adiology")
    (renderPromptL dentalName.data dentalCat.data) = 2
  rw [countOccs_prompt]
  decide

set_option maxRecDepth 40000 in
theorem dental_ph_key_count :
    countOccs (String.data "\x7bform_name_key\x7d") dentalPromptL = 0 := by
  show countOccs (lbrace :: String.data "form_name_key\x7d")
    (renderPromptL dentalName.data dentalCat.data) = 0
  rw [countOccs_prompt]
  decide

set_option maxRecDepth 40000 in
theorem dental_ph_name_count :
    countOccs (String.data "\x7bform_name\x7d") dentalPromptL = 0 := by
  show countOccs (lbrace :: String.data "form_name\x7d")
    (renderPromptL dentalName.data dentalCat.data) = 0
  rw [countOccs_prompt]
  decide

set_option maxRecDepth 40000 in
theorem dental_ph_cat_count :
    countOccs (String.data "\x7bcategory\x7d") dentalPromptL = 0 := by
  show countOccs (lbrace :: String.data "category\x7d")
    (renderPromptL dentalName.data dentalCat.data) = 0
  rw [countOccs_prompt]
  decide

/-- C7 (counterexample): for the example metadata (form name
`"Dental Patient Intake - v2!"`, category `"Radiology"`, neither occurring
elsewhere in the template), the compiled prompt contains the canonical key
verbatim four times — top-level JSON key, inner content key, `form_name`
field, pdf asset path — and the category twice — the Category info line
and the `category` field — not exactly once each. -/
theorem C7_counterexample :
    form_name_key dentalName.data = dKey ∧
    countOccs dKey dentalPromptL = 4 ∧ ¬ countOccs dKey dentalPromptL = 1 ∧
    countOccs dentalCat.data dentalPromptL = 2 ∧
    ¬ countOccs dentalCat.data dentalPromptL = 1 :=
  ⟨rfl, dental_key_count, by rw [dental_key_count]; omega,
    dental_cat_count, by rw [dental_cat_count]; omega⟩

/-- C7 (amended): for every metadata the compiled prompt contains the
canonical key, the category and the form name verbatim; at the example
metadata the key occurs exactly four times and the category exactly twice
(their expected structural positions), and no unresolved placeholder token
(`\x7bform_name_key\x7d`, `\x7bform_name\x7d`, `\x7bcategory\x7d`)
remains. -/
theorem C7_prompt_contents (fn cat : String) :
    form_name_key fn.data <:+: renderPromptL fn.data cat.data ∧
    cat.data <:+: renderPromptL fn.data cat.data ∧
    fn.data <:+: renderPromptL fn.data cat.data ∧
    countOccs dKey dentalPromptL = 4 ∧
    countOccs dentalCat.data dentalPromptL = 2 ∧
    countOccs (String.data "\x7bform_name_key\x7d") dentalPromptL = 0 ∧
    countOccs (String.data "\x7bform_name\x7d") dentalPromptL = 0 ∧
    countOccs (String.data "\x7bcategory\x7d") dentalPromptL = 0 := by
  refine ⟨?_, ?_, ?_, dental_key_count, dental_cat_count,
    dental_ph_key_count, dental_ph_name_count, dental_ph_cat_count⟩
  · exact List.infix_of_mem_flatten (List.mem_map_of_mem _ (show Seg.fkey ∈ FORM_ANALYSIS_SEGS by decide))
  · exact List.infix_of_mem_flatten (List.mem_map_of_mem _ (show Seg.fcat ∈ FORM_ANALYSIS_SEGS by decide))
  · exact List.infix_of_mem_flatten (List.mem_map_of_mem _ (show Seg.fname ∈ FORM_ANALYSIS_SEGS by decide))

/-! ### Theorems: claim C10 -/

/-- C10: when the inputs dictionary lacks a `form_name` (resp.
`category`) key, `_build_prompt` does not fail: it substitutes the
default `Untitled Form` (resp. `General`) and compiles the prompt —
and hence the canonical key — from that default; the key derived from the
default form name is `"untitled_form"`. -/
theorem C10_default_inputs (inputs : List (String × String)) :
    (inputs.find? (fun kv => kv.1 = "form_name") = none →
      build_prompt inputs =
        String.mk (renderPromptL (String.data "Untitled Form")
          (pyDictGet inputs "category" "General").data)) ∧
    (inputs.find? (fun kv => kv.1 = "category") = none →
      build_prompt inputs =
        String.mk (renderPromptL (pyDictGet inputs "form_name" "Untitled Form").data
          (String.data "General"))) ∧
    pyKey "Untitled Form" = "untitled_form" := by
  refine ⟨?_, ?_, rfl⟩
  · intro h
    have h1 : pyDictGet inputs "form_name" "Untitled Form" = "Untitled Form" := by
      unfold pyDictGet
      rw [h]
    unfold build_prompt
    rw [h1]
  · intro h
    have h1 : pyDictGet inputs "category" "General" = "General" := by
      unfold pyDictGet
      rw [h]
    unfold build_prompt
    rw [h1]

/-- Witness for `C10_default_inputs` at the empty inputs dictionary. -/
theorem C10_witness :
    build_prompt [] =
      String.mk (renderPromptL (String.data "Untitled Form") (String.data "General")) ∧
    pyKey "Untitled Form" = "untitled_form" :=
  ⟨(C10_default_inputs []).1 rfl, (C10_default_inputs []).2.2⟩

/-! ### The request assembly of `analyze_pdf` -/

/-- The base64 alphabet character of a 6-bit value, per
`base64.standard_b64encode`. -/
def b64Char (n : Nat) : Char :=
  if n < 26 then Char.ofNat (65 + n)
  else if n < 52 then Char.ofNat (97 + (n - 26))
  else if n < 62 then Char.ofNat (48 + (n - 52))
  else if n = 62 then '+' else '/'

/-- Standard base64 of a byte list, three bytes at a time, with equals-sign
padding. -/
def b64encodeAux : List Nat → List Char
  | [] => []
  | [a] => [b64Char (a / 4), b64Char (a % 4 * 16), '=', '=']
  | [a, b] => [b64Char (a / 4), b64Char (a % 4 * 16 + b / 16), b64Char (b % 16 * 4), '=']
  | a :: b :: c :: rest =>
    b64Char (a / 4) :: b64Char (a % 4 * 16 + b / 16) :: b64Char (b % 16 * 4 + c / 64) ::
      b64Char (c % 64) :: b64encodeAux rest

/-- base64 encoding and UTF-8 decoding of `_pdf_to_images` on a byte list (byte
values below 256). -/
def b64encode (bs : List Nat) : String := String.mk (b64encodeAux bs)

/-- The method `_pdf_to_images` (lines 171-189): each page, in source order, is
JPEG-encoded and then base64-encoded.  The JPEG encoding performed by the
external `pdf2image`/`PIL` libraries (150 DPI rasterization, quality 85)
is abstracted as the function argument `jpeg` from pages to byte lists. -/
def pdf_to_images {Img : Type} (jpeg : Img → List Nat) (pages : List Img) : List String :=
  pages.map (fun p => b64encode (jpeg p))

/-- The `source` field of an image content block. -/
structure ImageSource where
  type : String
  media_type : String
  data : String
deriving DecidableEq

/-- One block of the combined request message. -/
inductive ContentBlock where
  | image : ImageSource → ContentBlock
  | text : String → ContentBlock
deriving DecidableEq

/-- The image block built for one encoded page (lines 260-267). -/
def imageBlock (d : String) : ContentBlock :=
  ContentBlock.image ⟨"base64", "image/jpeg", d⟩

/-- The content of the single request message assembled by `analyze_pdf`
(lines 253-273): one image block per encoded page, in order, followed by
one text block holding the compiled prompt. -/
def analyze_pdf_content {Img : Type} (jpeg : Img → List Nat) (pages : List Img)
    (inputs : List (String × String)) : List ContentBlock :=
  (pdf_to_images jpeg pages).map imageBlock ++ [ContentBlock.text (build_prompt inputs)]

/-! ### Theorems: claim C8 -/

/-- C8: for a PDF with `N` pages, the assembled message content is exactly
`N` image blocks (base64-encoded JPEG, `"base64"`/`"image/jpeg"` source
fields) in source page order followed by exactly one text block holding
the compiled prompt; in particular every image precedes the prompt text. -/
theorem C8_message_order {Img : Type} (jpeg : Img → List Nat) (pages : List Img)
    (inputs : List (String × String)) :
    (analyze_pdf_content jpeg pages inputs).length = pages.length + 1 ∧
    List.take pages.length (analyze_pdf_content jpeg pages inputs) =
      (pdf_to_images jpeg pages).map imageBlock ∧
    (∀ i, i < pages.length →
      (analyze_pdf_content jpeg pages inputs)[i]? =
        (pages[i]?).map (fun p => imageBlock (b64encode (jpeg p)))) ∧
    List.drop pages.length (analyze_pdf_content jpeg pages inputs) =
      [ContentBlock.text (build_prompt inputs)] := by
  have hlen : ((pdf_to_images jpeg pages).map imageBlock).length = pages.length := by
    simp [pdf_to_images]
  refine ⟨?_, ?_, ?_, ?_⟩
  · simp [analyze_pdf_content, pdf_to_images]
  · unfold analyze_pdf_content
    rw [← hlen, List.take_left]
  · intro i hi
    unfold analyze_pdf_content
    rw [List.getElem?_append]
    rw [if_pos (by rw [hlen]; exact hi)]
    unfold pdf_to_images
    rw [List.getElem?_map, List.getElem?_map, Option.map_map]
    rfl
  · unfold analyze_pdf_content
    rw [← hlen, List.drop_left]

/-- A concrete page encoder for the C8 witness. -/
def jpegW (n : Nat) : List Nat := [n, n + 1, n + 2]

/-- Concrete pages for the C8 witness. -/
def pagesW : List Nat := [10, 20, 30]

/-- Concrete metadata for the C8 witness. -/
def inputsW : List (String × String) := [("form_name", "New Patient Form"), ("category", "Intake")]

/-- Witness for `C8_message_order` on a three-page document. -/
theorem C8_witness :
    (analyze_pdf_content jpegW pagesW inputsW).length = 3 + 1 ∧
    (analyze_pdf_content jpegW pagesW inputsW)[1]? =
      (pagesW[1]?).map (fun p => imageBlock (b64encode (jpegW p))) := by
  have h := C8_message_order jpegW pagesW inputsW
  exact ⟨h.1, h.2.2.1 1 (by decide)⟩

/-! ### Theorems: claims C5 and C6 -/

theorem toNat_ofNat_lt (n : Nat) (h : n < 55296) : (Char.ofNat n).toNat = n := by
  unfold Char.ofNat
  rw [dif_pos (Or.inl h)]
  rfl

/-- The builtin `str.lower` never produces an uppercase character of the modelled
repertoire. -/
theorem pyLower_img (a : Char) :
    ¬ (65 ≤ (pyLower a).toNat ∧ (pyLower a).toNat ≤ 90) ∧
    ¬ ((192 ≤ (pyLower a).toNat ∧ (pyLower a).toNat ≤ 222) ∧ (pyLower a).toNat ≠ 215) := by
  unfold pyLower
  split_ifs with h1 h2
  · rw [toNat_ofNat_lt _ (by omega)]
    omega
  · rw [toNat_ofNat_lt _ (by omega)]
    omega
  · exact ⟨h1, h2⟩

/-- Every character produced by the key pipeline is a fixed point of each
of its three mapping stages. -/
theorem keyChar_fixed (a : Char) :
    pyLower (replHyphen (replSpace (pyLower a))) = replHyphen (replSpace (pyLower a)) ∧
    replSpace (replHyphen (replSpace (pyLower a))) = replHyphen (replSpace (pyLower a)) ∧
    replHyphen (replHyphen (replSpace (pyLower a))) = replHyphen (replSpace (pyLower a)) := by
  have himg := pyLower_img a
  by_cases hsp : (pyLower a).toNat = 32
  · have h1 : replSpace (pyLower a) = '_' := by
      unfold replSpace
      rw [if_pos hsp]
    rw [h1]
    have h2 : replHyphen '_' = '_' := by decide
    rw [h2]
    exact ⟨by decide, by decide, by decide⟩
  · have h1 : replSpace (pyLower a) = pyLower a := by
      unfold replSpace
      rw [if_neg hsp]
    rw [h1]
    by_cases hhy : (pyLower a).toNat = 45
    · have h2 : replHyphen (pyLower a) = '_' := by
        unfold replHyphen
        rw [if_pos hhy]
      rw [h2]
      exact ⟨by decide, by decide, by decide⟩
    · have h2 : replHyphen (pyLower a) = pyLower a := by
        unfold replHyphen
        rw [if_neg hhy]
      rw [h2]
      refine ⟨?_, h1, h2⟩
      show pyLower (pyLower a) = pyLower a
      conv_lhs => rw [pyLower]
      rw [if_neg himg.1, if_neg himg.2]

/-- Every character of a derived key is fixed by the three mapping stages
and passes the filter. -/
theorem key_mem_fixed (l : List Char) :
    ∀ c ∈ form_name_key l,
      pyLower c = c ∧ replSpace c = c ∧ replHyphen c = c ∧ keyFilter c = true := by
  intro c hc
  unfold form_name_key at hc
  rw [List.mem_filter] at hc
  obtain ⟨hc1, hc2⟩ := hc
  rw [List.mem_map] at hc1
  obtain ⟨b, hb1, rfl⟩ := hc1
  rw [List.mem_map] at hb1
  obtain ⟨a2, ha2, rfl⟩ := hb1
  rw [List.mem_map] at ha2
  obtain ⟨a, _, rfl⟩ := ha2
  exact ⟨(keyChar_fixed a).1, (keyChar_fixed a).2.1, (keyChar_fixed a).2.2, hc2⟩

/-- Key derivation is idempotent at the character-list level. -/
theorem form_name_key_idem (l : List Char) :
    form_name_key (form_name_key l) = form_name_key l := by
  have hmem := key_mem_fixed l
  have hm1 : (form_name_key l).map pyLower = form_name_key l :=
    (List.map_congr_left fun a ha => (hmem a ha).1).trans (List.map_id _)
  have hm2 : (form_name_key l).map replSpace = form_name_key l :=
    (List.map_congr_left fun a ha => (hmem a ha).2.1).trans (List.map_id _)
  have hm3 : (form_name_key l).map replHyphen = form_name_key l :=
    (List.map_congr_left fun a ha => (hmem a ha).2.2.1).trans (List.map_id _)
  show ((((form_name_key l).map pyLower).map replSpace).map replHyphen).filter keyFilter
      = form_name_key l
  rw [hm1, hm2, hm3, List.filter_eq_self.mpr fun a ha => (hmem a ha).2.2.2]

/-- C6: canonical-key derivation is idempotent: for every input string,
deriving the key of the derived key gives the derived key back. -/
theorem C6_key_idempotent (s : String) : pyKey (pyKey s) = pyKey s := by
  unfold pyKey
  exact congrArg String.mk (form_name_key_idem s.data)

/-- Membership in the ASCII key repertoire `[a-z0-9_]`. -/
def asciiKeyChar (c : Char) : Bool :=
  decide ((97 ≤ c.toNat ∧ c.toNat ≤ 122) ∨ (48 ≤ c.toNat ∧ c.toNat ≤ 57) ∨ c.toNat = 95)

/-- C5 (counterexample): on the one-character form name `"é"` (U+00E9, a
lowercase letter for which the CPython `isalnum()` builtin returns `True`), the
derived key is `"é"` itself, which contains a character outside
`[a-z0-9_]`. -/
theorem C5_counterexample :
    pyKey "é" = "é" ∧ (pyKey "é").data.all asciiKeyChar = false :=
  ⟨rfl, rfl⟩

/-- C5 (amended): for every input made of ASCII characters, the derived
canonical key contains only lowercase ASCII letters, ASCII digits, and
underscores. -/
theorem C5_ascii_key_chars (l : List Char) (h : ∀ c ∈ l, c.toNat < 128) :
    ∀ c ∈ form_name_key l, asciiKeyChar c = true := by
  intro c hc
  unfold form_name_key at hc
  rw [List.mem_filter] at hc
  obtain ⟨hc1, hfil⟩ := hc
  rw [List.mem_map] at hc1
  obtain ⟨b, hb1, rfl⟩ := hc1
  rw [List.mem_map] at hb1
  obtain ⟨a2, ha2, rfl⟩ := hb1
  rw [List.mem_map] at ha2
  obtain ⟨a, hal, rfl⟩ := ha2
  have ha128 : a.toNat < 128 := h a hal
  unfold asciiKeyChar
  rw [decide_eq_true_eq]
  by_cases hup : 65 ≤ a.toNat ∧ a.toNat ≤ 90
  · have hl : pyLower a = Char.ofNat (a.toNat + 32) := by
      unfold pyLower
      rw [if_pos hup]
    have ht : (pyLower a).toNat = a.toNat + 32 := by
      rw [hl, toNat_ofNat_lt _ (by omega)]
    have hs : replSpace (pyLower a) = pyLower a := by
      unfold replSpace
      rw [if_neg (by omega)]
    have hh : replHyphen (replSpace (pyLower a)) = pyLower a := by
      rw [hs]
      unfold replHyphen
      rw [if_neg (by omega)]
    rw [hh, ht]
    omega
  · have hl : pyLower a = a := by
      unfold pyLower
      rw [if_neg hup, if_neg (by omega)]
    rw [hl] at hfil ⊢
    by_cases hsp : a.toNat = 32
    · have hs : replSpace a = '_' := by
        unfold replSpace
        rw [if_pos hsp]
      rw [hs]
      decide
    · have hs : replSpace a = a := by
        unfold replSpace
        rw [if_neg hsp]
      rw [hs] at hfil ⊢
      by_cases hhy : a.toNat = 45
      · have hh : replHyphen a = '_' := by
          unfold replHyphen
          rw [if_pos hhy]
        rw [hh]
        decide
      · have hh : replHyphen a = a := by
          unfold replHyphen
          rw [if_neg hhy]
        rw [hh] at hfil ⊢
        unfold keyFilter pyIsAlnum at hfil
        rw [Bool.or_eq_true, decide_eq_true_eq] at hfil
        rcases hfil with hnum | hund
        · omega
        · have ha' : a = '_' := of_decide_eq_true hund
          subst ha'
          decide

/-- An ASCII form name for the C5 witness. -/
def l0C5 : List Char := String.data "Ab c-9!"

/-- Witness for `C5_ascii_key_chars` at a concrete ASCII form name. -/
theorem C5_witness :
    (∀ c ∈ l0C5, c.toNat < 128) ∧ ∀ c ∈ form_name_key l0C5, asciiKeyChar c = true :=
  ⟨by decide, C5_ascii_key_chars l0C5 (by decide)⟩
